import Mathlib

/-!
Shallow embedding of the CS-T680-CNSE voting microservices (voter store,
poll data, vote store, the votes-api cross-service workflows, the health
middleware counters, and the CLI todo store), together with theorems
settling the specification claims about them.

The voter store is embedded from
`voting-application/voter-api/voter/voter.go` (the Redis-backed variant;
the in-memory variant in `voter-api/voter/voter.go` has the same
observable lookup/insert/update semantics, which this embedding also
covers).  The remote key-value store is modelled as an association list
keyed by the numeric id (the Redis key `voter:<id>` is determined by the
id alone), and timestamps are abstracted as naturals.
-/

namespace Voting

/-- Association-list lookup by numeric key, mirroring a Redis `JSONGet`
on the key derived from the id. -/
def findKey {α : Type} (s : List (Nat × α)) (id : Nat) : Option α :=
  match s with
  | [] => none
  | (k, v) :: rest => if k = id then some v else findKey rest id

/-- Association-list write, mirroring a Redis `JSONSet` on the key derived
from the id: overwrites the binding when present, creates it otherwise. -/
def setKey {α : Type} (s : List (Nat × α)) (id : Nat) (v : α) : List (Nat × α) :=
  match s with
  | [] => [(id, v)]
  | (k, w) :: rest => if k = id then (id, v) :: rest else (k, w) :: setKey rest id v

/-- Association-list delete, mirroring a Redis `JSONDel` on the key derived
from the id. -/
def delKey {α : Type} (s : List (Nat × α)) (id : Nat) : List (Nat × α) :=
  match s with
  | [] => []
  | (k, w) :: rest => if k = id then rest else (k, w) :: delKey rest id

/-- `voterPoll` from `voter.go`: one entry of a voter's voting history. -/
structure VoterPoll where
  pollID : Nat
  voteDate : Nat
deriving Repr, DecidableEq

/-- `Voter` from `voter.go`. -/
structure Voter where
  voterID : Nat
  firstName : String
  lastName : String
  voteHistory : List VoterPoll
deriving Repr, DecidableEq

/-- The voter store: the Redis keyspace `voter:*`, keyed by voter id. -/
abbrev VoterStore : Type := List (Nat × Voter)

/-- `NewVoter` from `voter.go`: a fresh voter with an empty vote history. -/
def NewVoter (id : Nat) (firstName lastName : String) : Voter :=
  { voterID := id
    firstName := firstName
    lastName := lastName
    voteHistory := [] }

/-- `GetAllVoters` from `voter.go`: every voter stored under a `voter:*` key. -/
def getAllVoters (s : VoterStore) : List Voter :=
  s.map (·.2)

/-- `GetVoter` from `voter.go`. -/
def getVoter (s : VoterStore) (voterID : Nat) : Except String Voter :=
  match findKey s voterID with
  | none => .error "voter does not exist"
  | some v => .ok v

/-- `AddVoter` from `voter.go`: fails when the id is already bound, else
stores the voter as given under its id. -/
def addVoter (s : VoterStore) (voter : Voter) : Except String VoterStore :=
  match getVoter s voter.voterID with
  | .ok _ => .error "voter already exists"
  | .error _ => .ok (setKey s voter.voterID voter)

/-- `UpdateVoter` from `voter.go`: overwrites only the name fields of the
stored voter; the stored vote history is kept. -/
def updateVoter (s : VoterStore) (voter : Voter) : Except String (Voter × VoterStore) :=
  match getVoter s voter.voterID with
  | .error _ => .error "voter does not exist"
  | .ok existingVoter =>
    let updated := { existingVoter with
      firstName := voter.firstName
      lastName := voter.lastName }
    .ok (updated, setKey s voter.voterID updated)

/-- `DeleteAllVoters` from `voter.go`. -/
def deleteAllVoters (_s : VoterStore) : VoterStore := []

/-- `DeleteVoter` from `voter.go`. -/
def deleteVoter (s : VoterStore) (voterID : Nat) : Except String VoterStore :=
  match getVoter s voterID with
  | .error _ => .error "voter does not exist"
  | .ok _ => .ok (delKey s voterID)

/-- `GetVoterHistory` from `voter.go`. -/
def getVoterHistory (s : VoterStore) (voterID : Nat) : Except String (List VoterPoll) :=
  match getVoter s voterID with
  | .error _ => .error "voter does not exist"
  | .ok voter => .ok voter.voteHistory

/-- The linear scan of a vote history for the first entry with the given
poll id, shared by `GetVoterPoll`/`AddVoterPoll` in `voter.go`. -/
def findPoll (hist : List VoterPoll) (pollID : Nat) : Option VoterPoll :=
  match hist with
  | [] => none
  | p :: rest => if p.pollID = pollID then some p else findPoll rest pollID

/-- `GetVoterPoll` from `voter.go`. -/
def getVoterPoll (s : VoterStore) (voterID pollID : Nat) : Except String VoterPoll :=
  match getVoter s voterID with
  | .error _ => .error "voter does not exist"
  | .ok voter =>
    match findPoll voter.voteHistory pollID with
    | some p => .ok p
    | none => .error "voter poll not found"

/-- `AddVoterPoll` from `voter.go`: rejects a duplicate poll id, else
appends the new entry and writes the voter back. -/
def addVoterPoll (s : VoterStore) (voterID pollID voteDate : Nat) :
    Except String (VoterPoll × VoterStore) :=
  match getVoter s voterID with
  | .error _ => .error "voter does not exist"
  | .ok voter =>
    match findPoll voter.voteHistory pollID with
    | some _ => .error "voter has already voted in this poll"
    | none =>
      let newVoterPoll : VoterPoll := { pollID := pollID, voteDate := voteDate }
      let voter' := { voter with voteHistory := voter.voteHistory ++ [newVoterPoll] }
      .ok (newVoterPoll, setKey s voter.voterID voter')

/-- The update loop of `UpdateVoterPoll` in `voter.go`: replaces the first
entry whose poll id matches and reports the replacement, starting from the
Go zero value `voterPoll{}` (poll id 0, zero date) when nothing matches. -/
def updateHistLoop (hist : List VoterPoll) (pollID voteDate : Nat) :
    List VoterPoll × VoterPoll :=
  match hist with
  | [] => ([], { pollID := 0, voteDate := 0 })
  | p :: rest =>
    if p.pollID = pollID then
      ({ pollID := pollID, voteDate := voteDate } :: rest,
       { pollID := pollID, voteDate := voteDate })
    else
      let (rest', found) := updateHistLoop rest pollID voteDate
      (p :: rest', found)

/-- `UpdateVoterPoll` from `voter.go`: runs the update loop and then treats
a replacement whose poll id is 0 as "voter poll not found". -/
def updateVoterPoll (s : VoterStore) (voterID pollID voteDate : Nat) :
    Except String (VoterPoll × VoterStore) :=
  match getVoter s voterID with
  | .error _ => .error "voter does not exist"
  | .ok voter =>
    let r := updateHistLoop voter.voteHistory pollID voteDate
    if r.2.pollID = 0 then
      .error "voter poll not found"
    else
      .ok (r.2, setKey s voter.voterID { voter with voteHistory := r.1 })

/-- `DeleteVoterPoll` from `voter.go`: keeps every entry with a different
poll id and fails when that removes nothing. -/
def deleteVoterPoll (s : VoterStore) (voterID pollID : Nat) : Except String VoterStore :=
  match getVoter s voterID with
  | .error _ => .error "voter does not exist"
  | .ok voter =>
    let updatedVoteHistory := voter.voteHistory.filter (fun p => p.pollID ≠ pollID)
    if updatedVoteHistory.length = voter.voteHistory.length then
      .error "voter poll not found"
    else
      .ok (setKey s voter.voterID { voter with voteHistory := updatedVoteHistory })

/-- `Vote` from `votes-api/votes/votes.go`. -/
structure Vote where
  voteID : Nat
  voterID : Nat
  pollID : Nat
  voteValue : Nat
deriving Repr, DecidableEq

/-- The vote store: the Redis keyspace `votes:*`, keyed by vote id. -/
abbrev VoteStore : Type := List (Nat × Vote)

/-- `GetVote` from `votes.go`. -/
def getVote (s : VoteStore) (voteID : Nat) : Except String Vote :=
  match findKey s voteID with
  | none => .error "vote does not exist"
  | some v => .ok v

/-- `AddVote` from `votes.go`. -/
def addVote (s : VoteStore) (vote : Vote) : Except String VoteStore :=
  match getVote s vote.voteID with
  | .ok _ => .error "vote already exists"
  | .error _ => .ok (setKey s vote.voteID vote)

/-- `DeleteVote` from `votes.go`. -/
def deleteVote (s : VoteStore) (voteID : Nat) : Except String VoteStore :=
  match getVote s voteID with
  | .error _ => .error "vote does not exist"
  | .ok _ => .ok (delKey s voteID)

/-- `PollOption` from the votes-api schema / `poll-api/poll/poll.go`. -/
structure PollOption where
  pollOptionID : Nat
  pollOptionText : String
deriving Repr, DecidableEq

/-- `Poll` from the votes-api schema / `poll-api/poll/poll.go`. -/
structure Poll where
  pollID : Nat
  pollTitle : String
  pollQuestion : String
  pollOptions : List PollOption
deriving Repr, DecidableEq

/-! ## The votes-api cross-service workflows (`votes-api/api/votes-api.go`)

The votes service talks to the voter and poll services over HTTP.  The
embedding keeps both backing stores explicit in a `World`, and models the
transport layer by `Transport` flags: a `true` flag means the HTTP round
trip itself succeeds (resty returns `err == nil`), in which case the
remote service's handler runs against its store; a `false` flag means the
round trip fails at transport level.  The code inspects only the
transport error of the history POST/DELETE, never its response status. -/

/-- The two stores the `AddVote`/`DeleteVote` workflows touch. -/
structure World where
  voterStore : VoterStore
  voteStore : VoteStore

/-- Transport outcomes for the three remote calls made by `AddVote`. -/
structure Transport where
  votersGetOk : Bool
  pollsGetOk : Bool
  historyPostOk : Bool

/-- The body of the remote `POST /voters/:id/polls/:pollId` issued by
`AddVote`: the voter-api `AddVoterPoll` handler runs `AddVoterPoll` on the
voter store; its response status is ignored by the votes service, so a
store-level failure leaves the voter store unchanged and the workflow
proceeds as if it had succeeded. -/
def remoteAddVoterPoll (s : VoterStore) (voterID pollID now : Nat) : VoterStore :=
  match addVoterPoll s voterID pollID now with
  | .error _ => s
  | .ok (_, s') => s'

/-- The body of the remote `DELETE /voters/:id/polls/:pollId` issued by
`DeleteVote`; as above, the response status is ignored. -/
def remoteDeleteVoterPoll (s : VoterStore) (voterID pollID : Nat) : VoterStore :=
  match deleteVoterPoll s voterID pollID with
  | .error _ => s
  | .ok s' => s'

/-- `AddVote` from `votes-api.go` (after JSON binding), returning the HTTP
status and the resulting stores.  `body` is the bound request body,
`pathId` the parse of the `:id` path segment (`none` when unparsable),
`polls` the poll list served by the poll API, `now` the current time.
Control flow mirrors the handler: fetch voters (404 on transport error or
absent voter), fetch polls (404 on transport error, absent poll, or absent
option), parse the path id (400), insert the vote (409 on conflict), then
POST the history entry (500 on transport error, with the vote kept). -/
def addVoteWorkflow (tr : Transport) (polls : List Poll) (now : Nat)
    (body : Vote) (pathId : Option Nat) (w : World) : Nat × World :=
  if !tr.votersGetOk then (404, w)
  else if !((getAllVoters w.voterStore).any (fun voter => voter.voterID = body.voterID)) then
    (404, w)
  else if !tr.pollsGetOk then (404, w)
  else
    match polls.find? (fun poll => poll.pollID = body.pollID) with
    | none => (404, w)
    | some poll =>
      if !(poll.pollOptions.any (fun option => option.pollOptionID = body.voteValue)) then
        (404, w)
      else
        match pathId with
        | none => (400, w)
        | some voteIDUint =>
          match addVote w.voteStore { body with voteID := voteIDUint } with
          | .error _ => (409, w)
          | .ok voteStore' =>
            if !tr.historyPostOk then
              (500, { w with voteStore := voteStore' })
            else
              (200, { voterStore := remoteAddVoterPoll w.voterStore body.voterID body.pollID now
                      voteStore := voteStore' })

/-- `DeleteVote` from `votes-api.go`: parse the id (400), fetch the vote
(404 when absent), issue the remote history DELETE (500 on transport
error, leaving the vote in place), then delete the vote record. -/
def deleteVoteWorkflow (historyDeleteOk : Bool) (pathId : Option Nat) (w : World) :
    Nat × World :=
  match pathId with
  | none => (400, w)
  | some voteIDUint =>
    match getVote w.voteStore voteIDUint with
    | .error _ => (404, w)
    | .ok vote =>
      if !historyDeleteOk then (500, w)
      else
        let voterStore' := remoteDeleteVoterPoll w.voterStore vote.voterID vote.pollID
        match deleteVote w.voteStore voteIDUint with
        | .error _ => (500, { w with voterStore := voterStore' })
        | .ok voteStore' => (200, { voterStore := voterStore', voteStore := voteStore' })

/-! ## The voter-api HTTP handlers (`voter-api/api/voter-api.go`)

Each handler is embedded from after JSON binding; the `:id`/`:pollId`
path segments arrive as `Option Nat` (`none` when `strconv.ParseUint`
fails).  Results are the HTTP status plus the resulting store. -/

/-- `POST /voters/:id` (`AddVoter` handler): builds a fresh voter via
`NewVoter` from the path id and the body's name fields only, then maps a
store-level failure to 500. -/
def addVoterHandler (s : VoterStore) (pathId : Option Nat) (body : Voter) :
    Nat × VoterStore :=
  match pathId with
  | none => (400, s)
  | some voterIDUint =>
    let newVoter := NewVoter voterIDUint body.firstName body.lastName
    match addVoter s newVoter with
    | .error _ => (500, s)
    | .ok s' => (200, s')

/-- `PUT /voters/:id` (`UpdateVoter` handler): overwrites the body's id
with the path id, then maps a store-level failure to 500. -/
def updateVoterHandler (s : VoterStore) (pathId : Option Nat) (body : Voter) :
    Nat × VoterStore :=
  match pathId with
  | none => (400, s)
  | some voterIDUint =>
    match updateVoter s { body with voterID := voterIDUint } with
    | .error _ => (500, s)
    | .ok (_, s') => (200, s')

/-- `GET /voters/:id` (`GetVoter` handler): 404 when absent. -/
def getVoterHandler (s : VoterStore) (pathId : Option Nat) : Nat × VoterStore :=
  match pathId with
  | none => (400, s)
  | some voterIDUint =>
    match getVoter s voterIDUint with
    | .error _ => (404, s)
    | .ok _ => (200, s)

/-- `DELETE /voters/:id` (`DeleteVoter` handler): 404 when absent. -/
def deleteVoterHandler (s : VoterStore) (pathId : Option Nat) : Nat × VoterStore :=
  match pathId with
  | none => (400, s)
  | some voterIDUint =>
    match deleteVoter s voterIDUint with
    | .error _ => (404, s)
    | .ok s' => (200, s')

/-- `POST /voters/:id/polls/:pollId` (`AddVoterPoll` handler): 400 on any
store-level failure (absent voter or duplicate poll id). -/
def addVoterPollHandler (s : VoterStore) (pathId pathPollId : Option Nat) (voteDate : Nat) :
    Nat × VoterStore :=
  match pathId with
  | none => (400, s)
  | some voterIDUint =>
    match pathPollId with
    | none => (400, s)
    | some pollIDUint =>
      match addVoterPoll s voterIDUint pollIDUint voteDate with
      | .error _ => (400, s)
      | .ok (_, s') => (200, s')

/-! ## Request counters and the health endpoint (`HealthMiddleware`,
`HealthCheck`)

A request is abstracted to its response status and its duration.  The
middleware increments the total-call counter before the handler runs and
the error counter and time total after it; the health endpoint itself
passes through the middleware, so its handler observes the total-call
counter already incremented for the health request but the error counter
and the time total not yet updated for it. -/

/-- The per-service counter fields of the API handler struct. -/
structure HealthState where
  totalCalls : Nat
  errorCalls : Nat
  totalRequestTime : Nat
deriving Repr, DecidableEq

/-- The counters at boot. -/
def initHealth : HealthState :=
  { totalCalls := 0, errorCalls := 0, totalRequestTime := 0 }

/-- `HealthMiddleware` around one request `(status, duration)`. -/
def middlewareStep (h : HealthState) (req : Nat × Nat) : HealthState :=
  let during := { h with totalCalls := h.totalCalls + 1 }
  { during with
    errorCalls := during.errorCalls + (if 400 ≤ req.1 then 1 else 0)
    totalRequestTime := during.totalRequestTime + req.2 }

/-- The counters after a sequence of handled requests. -/
def processRequests (h : HealthState) (reqs : List (Nat × Nat)) : HealthState :=
  reqs.foldl middlewareStep h

/-- The numeric fields of the `HealthCheck` JSON response. -/
structure HealthReport where
  totalAPICalls : Nat
  totalAPICallsError : Nat
  totalRequestTime : Nat
  averageRequestTime : Nat
deriving Repr, DecidableEq

/-- `HealthCheck` from the handler: reads the counters as they stand while
it runs; the mean is integer division, zero when no calls yet. -/
def healthCheck (h : HealthState) : HealthReport :=
  { totalAPICalls := h.totalCalls
    totalAPICallsError := h.errorCalls
    totalRequestTime := h.totalRequestTime
    averageRequestTime :=
      if 0 < h.totalCalls then h.totalRequestTime / h.totalCalls else 0 }

/-- The report produced by a health request routed through
`HealthMiddleware`: the handler runs after the total-call increment for
the health request itself, before the error/time updates. -/
def healthEndpointReport (h : HealthState) : HealthReport :=
  healthCheck { h with totalCalls := h.totalCalls + 1 }

/-! ## Voter-store invariants and reachability -/

/-- A voter's history holds at most one entry per poll id. -/
def HistOk (voter : Voter) : Prop :=
  (voter.voteHistory.map VoterPoll.pollID).Nodup

/-- Every voter in the store satisfies `HistOk`. -/
def StoreOk (s : VoterStore) : Prop :=
  ∀ kv ∈ s, HistOk kv.2

/-- Every binding's value carries the id it is keyed under (true of every
store the service builds, since each write uses the key derived from the
stored voter's own id). -/
def KeysOk (s : VoterStore) : Prop :=
  ∀ kv ∈ s, kv.2.voterID = kv.1

/-- One voter-store operation as the service can perform it: the voter-api
`AddVoter` handler always inserts a `NewVoter` built from the path id and
the body's name fields; the remaining operations are the store functions
on arbitrary arguments. -/
inductive VStep : VoterStore → VoterStore → Prop where
  | add (s : VoterStore) (id : Nat) (f l : String) (s' : VoterStore)
      (h : addVoter s (NewVoter id f l) = .ok s') : VStep s s'
  | update (s : VoterStore) (v v' : Voter) (s' : VoterStore)
      (h : updateVoter s v = .ok (v', s')) : VStep s s'
  | del (s : VoterStore) (id : Nat) (s' : VoterStore)
      (h : deleteVoter s id = .ok s') : VStep s s'
  | delAll (s : VoterStore) : VStep s (deleteAllVoters s)
  | addPoll (s : VoterStore) (vID pID d : Nat) (p : VoterPoll) (s' : VoterStore)
      (h : addVoterPoll s vID pID d = .ok (p, s')) : VStep s s'
  | updatePoll (s : VoterStore) (vID pID d : Nat) (p : VoterPoll) (s' : VoterStore)
      (h : updateVoterPoll s vID pID d = .ok (p, s')) : VStep s s'
  | delPoll (s : VoterStore) (vID pID : Nat) (s' : VoterStore)
      (h : deleteVoterPoll s vID pID = .ok s') : VStep s s'

/-- The voter-store states reachable from the empty store through the
service's operations. -/
inductive ReachableStore : VoterStore → Prop where
  | empty : ReachableStore []
  | step {s s' : VoterStore} : ReachableStore s → VStep s s' → ReachableStore s'

end Voting

namespace Todo

/-- `ToDoItem` from `todo/db/todo.go`. -/
structure ToDoItem where
  id : Int
  title : String
  isDone : Bool
deriving Repr, DecidableEq

/-- `DbMap` from `todo.go`: the in-process map keyed by item id. -/
abbrev DbMap : Type := List (Int × ToDoItem)

/-- Map insert/overwrite, mirroring `t.toDoMap[item.Id] = item`. -/
def mapInsert (m : DbMap) (k : Int) (item : ToDoItem) : DbMap :=
  match m with
  | [] => [(k, item)]
  | (k', v) :: rest =>
    if k' = k then (k, item) :: rest else (k', v) :: mapInsert rest k item

/-- Map lookup, mirroring `t.toDoMap[id]`. -/
def mapFind (m : DbMap) (k : Int) : Option ToDoItem :=
  match m with
  | [] => none
  | (k', v) :: rest => if k' = k then some v else mapFind rest k

/-- The `ToDo` struct plus the backing file it reads and rewrites: the
file is the JSON array on disk, kept as the list of items it holds. -/
structure ToDo where
  toDoMap : DbMap
  file : List ToDoItem
deriving Repr, DecidableEq

/-- `loadDB` from `todo.go`: folds every file item into the in-process
map (inserting or overwriting; entries already in the map but absent from
the file are kept). -/
def loadDB (t : ToDo) : ToDo :=
  { t with toDoMap := t.file.foldl (fun m item => mapInsert m item.id item) t.toDoMap }

/-- `saveDB` from `todo.go`: rewrites the whole file from the map values. -/
def saveDB (t : ToDo) : ToDo :=
  { t with file := t.toDoMap.map (·.2) }

/-- `AddItem` from `todo.go`: load, reject an existing id, insert, save. -/
def addItem (t : ToDo) (item : ToDoItem) : Except String ToDo :=
  let t := loadDB t
  match mapFind t.toDoMap item.id with
  | some _ => .error "item already exists in the database"
  | none => .ok (saveDB { t with toDoMap := mapInsert t.toDoMap item.id item })

/-- `UpdateItem` from `todo.go`: load, require an existing id, overwrite,
save. -/
def updateItem (t : ToDo) (item : ToDoItem) : Except String ToDo :=
  let t := loadDB t
  match mapFind t.toDoMap item.id with
  | none => .error "item does not exist in the database"
  | some _ => .ok (saveDB { t with toDoMap := mapInsert t.toDoMap item.id item })

/-- `GetItem` from `todo.go`: load, then look the id up (the load's effect
on the in-process map is part of the struct's state). -/
def getItem (t : ToDo) (id : Int) : Except String (ToDoItem × ToDo) :=
  let t := loadDB t
  match mapFind t.toDoMap id with
  | none => .error "item does not exist in the database"
  | some item => .ok (item, t)

/-- `GetAllItems` from `todo.go`: load, then list the map's values. -/
def getAllItems (t : ToDo) : List ToDoItem × ToDo :=
  let t := loadDB t
  (t.toDoMap.map (·.2), t)

/-- `ChangeItemDoneStatus` from `todo.go`: `GetItem`, flip `IsDone`, then
`UpdateItem`, exactly as the code composes them. -/
def changeItemDoneStatus (t : ToDo) (id : Int) (value : Bool) : Except String ToDo :=
  match getItem t id with
  | .error e => .error e
  | .ok (item, t) => updateItem t { item with isDone := value }

end Todo


/-! ## Helper lemmas -/

namespace Voting

theorem findKey_some_mem {α : Type} {s : List (Nat × α)} {id : Nat} {v : α}
    (h : findKey s id = some v) : (id, v) ∈ s := by
  induction s with
  | nil => simp [findKey] at h
  | cons kv rest ih =>
    obtain ⟨k, w⟩ := kv
    by_cases hk : k = id
    · subst hk
      simp [findKey] at h
      subst h
      exact List.mem_cons_self _ _
    · simp [findKey, hk] at h
      exact List.mem_cons_of_mem _ (ih h)

theorem mem_setKey {α : Type} {s : List (Nat × α)} {id : Nat} {v : α} {kv : Nat × α}
    (h : kv ∈ setKey s id v) : kv ∈ s ∨ kv = (id, v) := by
  induction s with
  | nil =>
    simp [setKey] at h
    exact Or.inr h
  | cons kw rest ih =>
    obtain ⟨k, w⟩ := kw
    by_cases hk : k = id
    · subst hk
      simp [setKey] at h
      rcases h with h | h
      · exact Or.inr h
      · exact Or.inl (List.mem_cons_of_mem _ h)
    · simp [setKey, hk] at h
      rcases h with h | h
      · exact Or.inl (by simp [h])
      · rcases ih h with h' | h'
        · exact Or.inl (List.mem_cons_of_mem _ h')
        · exact Or.inr h'

theorem findKey_setKey_self {α : Type} (s : List (Nat × α)) (id : Nat) (v : α) :
    findKey (setKey s id v) id = some v := by
  induction s with
  | nil => simp [setKey, findKey]
  | cons kw rest ih =>
    obtain ⟨k, w⟩ := kw
    by_cases hk : k = id
    · subst hk
      simp [setKey, findKey]
    · simp [setKey, findKey, hk, ih]

theorem findKey_setKey_ne {α : Type} (s : List (Nat × α)) (id j : Nat) (v : α)
    (h : j ≠ id) : findKey (setKey s id v) j = findKey s j := by
  have hij : id ≠ j := fun h' => h h'.symm
  induction s with
  | nil => simp [setKey, findKey, hij]
  | cons kw rest ih =>
    obtain ⟨k, w⟩ := kw
    by_cases hk : k = id
    · subst hk
      simp [setKey, findKey, hij]
    · simp [setKey, findKey, hk, ih]

theorem mem_delKey {α : Type} {s : List (Nat × α)} {id : Nat} {kv : Nat × α}
    (h : kv ∈ delKey s id) : kv ∈ s := by
  induction s with
  | nil => simp [delKey] at h
  | cons kw rest ih =>
    obtain ⟨k, w⟩ := kw
    by_cases hk : k = id
    · subst hk
      simp [delKey] at h
      exact List.mem_cons_of_mem _ h
    · simp [delKey, hk] at h
      rcases h with h | h
      · simp [h]
      · exact List.mem_cons_of_mem _ (ih h)

theorem findPoll_isSome_iff (hist : List VoterPoll) (pID : Nat) :
    (findPoll hist pID).isSome = true ↔ ∃ p ∈ hist, p.pollID = pID := by
  induction hist with
  | nil => simp [findPoll]
  | cons p rest ih =>
    by_cases hp : p.pollID = pID
    · simp [findPoll, hp]
    · simp [findPoll, hp, ih]

theorem findPoll_eq_none_iff (hist : List VoterPoll) (pID : Nat) :
    findPoll hist pID = none ↔ ∀ p ∈ hist, p.pollID ≠ pID := by
  induction hist with
  | nil => simp [findPoll]
  | cons p rest ih =>
    by_cases hp : p.pollID = pID
    · simp [findPoll, hp]
    · simp [findPoll, hp, ih]

theorem updateHistLoop_fst_map (hist : List VoterPoll) (pID d : Nat) :
    ((updateHistLoop hist pID d).1).map VoterPoll.pollID = hist.map VoterPoll.pollID := by
  induction hist with
  | nil => simp [updateHistLoop]
  | cons p rest ih =>
    by_cases hp : p.pollID = pID
    · simp [updateHistLoop, hp]
    · simp [updateHistLoop, hp, ih]

theorem updateHistLoop_snd_eq (hist : List VoterPoll) (pID d : Nat) :
    (updateHistLoop hist pID d).2 =
      if (findPoll hist pID).isSome then
        { pollID := pID, voteDate := d }
      else
        { pollID := 0, voteDate := 0 } := by
  induction hist with
  | nil => simp [updateHistLoop, findPoll]
  | cons p rest ih =>
    by_cases hp : p.pollID = pID
    · simp [updateHistLoop, findPoll, hp]
    · simp [updateHistLoop, findPoll, hp, ih]

theorem findPoll_updateHistLoop_fst (hist : List VoterPoll) (pID d : Nat)
    (h : (findPoll hist pID).isSome = true) :
    findPoll (updateHistLoop hist pID d).1 pID = some { pollID := pID, voteDate := d } := by
  induction hist with
  | nil => simp [findPoll] at h
  | cons p rest ih =>
    by_cases hp : p.pollID = pID
    · simp [updateHistLoop, findPoll, hp]
    · simp [findPoll, hp] at h
      simp [updateHistLoop, findPoll, hp, ih h]

end Voting

namespace Voting

theorem getVoter_ok_iff {s : VoterStore} {id : Nat} {v : Voter} :
    getVoter s id = .ok v ↔ findKey s id = some v := by
  unfold getVoter
  cases h : findKey s id <;> simp

theorem inv_setKey {s : VoterStore} {id : Nat} {v : Voter}
    (hok : StoreOk s) (hkeys : KeysOk s) (hv : HistOk v) (hid : v.voterID = id) :
    StoreOk (setKey s id v) ∧ KeysOk (setKey s id v) := by
  constructor
  · intro kv hmem
    rcases mem_setKey hmem with h | h
    · exact hok kv h
    · subst h
      exact hv
  · intro kv hmem
    rcases mem_setKey hmem with h | h
    · exact hkeys kv h
    · subst h
      exact hid

theorem histOk_of_mem {s : VoterStore} {id : Nat} {v : Voter}
    (hok : StoreOk s) (h : findKey s id = some v) : HistOk v :=
  hok (id, v) (findKey_some_mem h)

theorem voterID_of_mem {s : VoterStore} {id : Nat} {v : Voter}
    (hkeys : KeysOk s) (h : findKey s id = some v) : v.voterID = id :=
  hkeys (id, v) (findKey_some_mem h)

theorem addVoter_ok_iff {s : VoterStore} {v : Voter} {s' : VoterStore} :
    addVoter s v = .ok s' ↔ findKey s v.voterID = none ∧ s' = setKey s v.voterID v := by
  unfold addVoter getVoter
  cases hk : findKey s v.voterID with
  | none => simp [eq_comm]
  | some w => simp

theorem updateVoter_ok_iff {s : VoterStore} {v v' : Voter} {s' : VoterStore} :
    updateVoter s v = .ok (v', s') ↔
      ∃ w, findKey s v.voterID = some w ∧
        v' = { w with firstName := v.firstName, lastName := v.lastName } ∧
        s' = setKey s v.voterID { w with firstName := v.firstName, lastName := v.lastName } := by
  unfold updateVoter getVoter
  cases hk : findKey s v.voterID with
  | none => simp
  | some w => simp [and_comm, eq_comm]

theorem deleteVoter_ok_iff {s : VoterStore} {id : Nat} {s' : VoterStore} :
    deleteVoter s id = .ok s' ↔ (∃ w, findKey s id = some w) ∧ s' = delKey s id := by
  unfold deleteVoter getVoter
  cases hk : findKey s id with
  | none => simp
  | some w => simp [eq_comm]

theorem addVoterPoll_ok_iff {s : VoterStore} {vID pID d : Nat} {p : VoterPoll}
    {s' : VoterStore} :
    addVoterPoll s vID pID d = .ok (p, s') ↔
      ∃ voter, findKey s vID = some voter ∧ findPoll voter.voteHistory pID = none ∧
        p = { pollID := pID, voteDate := d } ∧
        s' = setKey s voter.voterID
          { voter with voteHistory := voter.voteHistory ++ [{ pollID := pID, voteDate := d }] } := by
  unfold addVoterPoll getVoter
  cases hk : findKey s vID with
  | none => simp
  | some voter =>
    cases hf : findPoll voter.voteHistory pID with
    | some q => simp [hf]
    | none => simp [hf, and_comm, eq_comm]

theorem updateVoterPoll_ok_iff {s : VoterStore} {vID pID d : Nat} {p : VoterPoll}
    {s' : VoterStore} :
    updateVoterPoll s vID pID d = .ok (p, s') ↔
      ∃ voter, findKey s vID = some voter ∧
        (updateHistLoop voter.voteHistory pID d).2.pollID ≠ 0 ∧
        p = (updateHistLoop voter.voteHistory pID d).2 ∧
        s' = setKey s voter.voterID
          { voter with voteHistory := (updateHistLoop voter.voteHistory pID d).1 } := by
  unfold updateVoterPoll getVoter
  cases hk : findKey s vID with
  | none => simp
  | some voter =>
    dsimp only
    by_cases hz : (updateHistLoop voter.voteHistory pID d).2.pollID = 0
    · rw [if_pos hz]
      constructor
      · intro h
        exact absurd h (by simp)
      · rintro ⟨voter', hv', hz', hp, hs'⟩
        injection hv' with hv'
        subst hv'
        exact absurd hz hz'
    · rw [if_neg hz]
      constructor
      · intro h
        simp only [Except.ok.injEq, Prod.mk.injEq] at h
        exact ⟨voter, rfl, hz, h.1.symm, h.2.symm⟩
      · rintro ⟨voter', hv', hz', hp, hs'⟩
        injection hv' with hv'
        subst hv'
        subst hp
        subst hs'
        rfl

theorem deleteVoterPoll_ok_iff {s : VoterStore} {vID pID : Nat} {s' : VoterStore} :
    deleteVoterPoll s vID pID = .ok s' ↔
      ∃ voter, findKey s vID = some voter ∧
        (voter.voteHistory.filter (fun q => q.pollID ≠ pID)).length ≠
          voter.voteHistory.length ∧
        s' = setKey s voter.voterID
          { voter with voteHistory := voter.voteHistory.filter (fun q => q.pollID ≠ pID) } := by
  unfold deleteVoterPoll getVoter
  cases hk : findKey s vID with
  | none => simp
  | some voter =>
    dsimp only
    by_cases hl : (voter.voteHistory.filter (fun q => q.pollID ≠ pID)).length =
        voter.voteHistory.length
    · rw [if_pos hl]
      constructor
      · intro h
        exact absurd h (by simp)
      · rintro ⟨voter', hv', hl', hs'⟩
        injection hv' with hv'
        subst hv'
        exact absurd hl hl'
    · rw [if_neg hl]
      constructor
      · intro h
        simp only [Except.ok.injEq] at h
        exact ⟨voter, rfl, hl, h.symm⟩
      · rintro ⟨voter', hv', hl', hs'⟩
        injection hv' with hv'
        subst hv'
        subst hs'
        rfl

theorem vstep_preserves {s s' : VoterStore} (hstep : VStep s s')
    (hok : StoreOk s) (hkeys : KeysOk s) : StoreOk s' ∧ KeysOk s' := by
  cases hstep with
  | add id f l s2 h =>
    obtain ⟨-, hs'⟩ := addVoter_ok_iff.mp h
    subst hs'
    exact inv_setKey hok hkeys (by simp [NewVoter, HistOk]) rfl
  | update v v' s2 h =>
    obtain ⟨w, hmem, -, hs'⟩ := updateVoter_ok_iff.mp h
    subst hs'
    have h1 : HistOk w := histOk_of_mem hok hmem
    have h2 : w.voterID = v.voterID := voterID_of_mem hkeys hmem
    exact inv_setKey hok hkeys (by simpa [HistOk] using h1) (by simpa using h2)
  | del id s2 h =>
    obtain ⟨-, hs'⟩ := deleteVoter_ok_iff.mp h
    subst hs'
    exact ⟨fun kv hmem => hok kv (mem_delKey hmem),
           fun kv hmem => hkeys kv (mem_delKey hmem)⟩
  | delAll =>
    exact ⟨fun kv hmem => absurd hmem (by simp [deleteAllVoters]),
           fun kv hmem => absurd hmem (by simp [deleteAllVoters])⟩
  | addPoll vID pID d p s2 h =>
    obtain ⟨voter, hmem, hf, -, hs'⟩ := addVoterPoll_ok_iff.mp h
    subst hs'
    have hhist : HistOk voter := histOk_of_mem hok hmem
    refine inv_setKey hok hkeys ?_ rfl
    have hnotin : pID ∉ voter.voteHistory.map VoterPoll.pollID := by
      intro hin
      obtain ⟨q, hq, hq'⟩ := List.mem_map.mp hin
      exact (findPoll_eq_none_iff _ _ |>.mp hf q hq) hq'
    simp only [HistOk, List.map_append, List.map_cons, List.map_nil]
    exact List.Nodup.append hhist (List.nodup_singleton _)
      (by simpa [List.disjoint_singleton] using hnotin)
  | updatePoll vID pID d p s2 h =>
    obtain ⟨voter, hmem, -, -, hs'⟩ := updateVoterPoll_ok_iff.mp h
    subst hs'
    have hhist : HistOk voter := histOk_of_mem hok hmem
    refine inv_setKey hok hkeys ?_ rfl
    simp only [HistOk, updateHistLoop_fst_map]
    exact hhist
  | delPoll vID pID s2 h =>
    obtain ⟨voter, hmem, -, hs'⟩ := deleteVoterPoll_ok_iff.mp h
    subst hs'
    have hhist : HistOk voter := histOk_of_mem hok hmem
    refine inv_setKey hok hkeys ?_ rfl
    exact List.Nodup.sublist
      (List.Sublist.map VoterPoll.pollID (List.filter_sublist _)) hhist

theorem reachable_inv {s : VoterStore} (h : ReachableStore s) :
    StoreOk s ∧ KeysOk s := by
  induction h with
  | empty =>
    exact ⟨fun kv hmem => absurd hmem (by simp),
           fun kv hmem => absurd hmem (by simp)⟩
  | step _ hstep ih => exact vstep_preserves hstep ih.1 ih.2

end Voting

namespace Voting

theorem getVote_ok_iff {s : VoteStore} {id : Nat} {v : Vote} :
    getVote s id = .ok v ↔ findKey s id = some v := by
  unfold getVote
  cases h : findKey s id <;> simp

theorem addVote_ok_iff {s : VoteStore} {v : Vote} {s' : VoteStore} :
    addVote s v = .ok s' ↔ findKey s v.voteID = none ∧ s' = setKey s v.voteID v := by
  unfold addVote getVote
  cases hk : findKey s v.voteID with
  | none => simp [eq_comm]
  | some w => simp

theorem processRequests_eq (reqs : List (Nat × Nat)) : ∀ h : HealthState,
    processRequests h reqs =
      { totalCalls := h.totalCalls + reqs.length
        errorCalls := h.errorCalls + (reqs.filter (fun r => 400 ≤ r.1)).length
        totalRequestTime := h.totalRequestTime + (reqs.map (·.2)).sum } := by
  induction reqs with
  | nil => intro h; simp [processRequests]
  | cons r rest ih =>
    intro h
    have h1 : processRequests h (r :: rest) = processRequests (middlewareStep h r) rest := rfl
    rw [h1, ih]
    by_cases hr : 400 ≤ r.1
    · simp [middlewareStep, List.filter_cons, hr, HealthState.mk.injEq]
      omega
    · simp [middlewareStep, List.filter_cons, hr, HealthState.mk.injEq]
      omega

theorem addVoter_error_of_found {s : VoterStore} {v w : Voter}
    (h : findKey s v.voterID = some w) :
    addVoter s v = .error "voter already exists" := by
  unfold addVoter getVoter
  rw [h]

theorem updateVoter_error_of_none {s : VoterStore} {v : Voter}
    (h : findKey s v.voterID = none) :
    updateVoter s v = .error "voter does not exist" := by
  unfold updateVoter getVoter
  rw [h]

theorem addVoterPoll_error_of_dup {s : VoterStore} {vID pID d : Nat} {voter : Voter}
    {q : VoterPoll} (hg : findKey s vID = some voter)
    (hf : findPoll voter.voteHistory pID = some q) :
    addVoterPoll s vID pID d = .error "voter has already voted in this poll" := by
  unfold addVoterPoll getVoter
  rw [hg]
  dsimp only
  rw [hf]

end Voting

/-! ## Claims -/

/-- C5 counterexample: in a store where voter 1's history holds an entry
with PollID 0, `GetVoterPoll` finds the entry, yet `UpdateVoterPoll` for
that very (voter, poll) pair reports "voter poll not found" instead of
succeeding — the not-found check `updatedVoterPoll.PollID == 0` misfires
when the poll id is 0. -/
theorem C5_counterexample :
    Voting.getVoterPoll [(1, ⟨1, "Nisarg", "Patel", [⟨0, 5⟩]⟩)] 1 0 = .ok ⟨0, 5⟩ ∧
    Voting.updateVoterPoll [(1, ⟨1, "Nisarg", "Patel", [⟨0, 5⟩]⟩)] 1 0 7 =
      .error "voter poll not found" :=
  ⟨rfl, rfl⟩

/-- C5 (amended): `UpdateVoterPoll` fails exactly when the voter is
absent, the history has no entry with the given PollID, or the PollID is
0 (the zero-value sentinel makes the found-check misfire); it succeeds,
replacing the matching entry's VoteDate, whenever the voter exists, such
an entry is present, and the PollID is nonzero. -/
theorem C5_updateVoterPoll_conditions (s : Voting.VoterStore) (vID pID d : Nat)
    (hkeys : Voting.KeysOk s) :
    ((∃ r, Voting.updateVoterPoll s vID pID d = .ok r) ↔
      ∃ voter, Voting.getVoter s vID = .ok voter ∧ pID ≠ 0 ∧
        ∃ p ∈ voter.voteHistory, p.pollID = pID) ∧
    (∀ r, Voting.updateVoterPoll s vID pID d = .ok r →
      r.1 = ⟨pID, d⟩ ∧
      Voting.getVoterPoll r.2 vID pID = .ok ⟨pID, d⟩) := by
  constructor
  · constructor
    · rintro ⟨⟨p, s'⟩, h⟩
      obtain ⟨voter, hk, hz, -, -⟩ := Voting.updateVoterPoll_ok_iff.mp h
      have hsnd := Voting.updateHistLoop_snd_eq voter.voteHistory pID d
      by_cases hsome : (Voting.findPoll voter.voteHistory pID).isSome = true
      · rw [hsnd, if_pos hsome] at hz
        refine ⟨voter, Voting.getVoter_ok_iff.mpr hk, by simpa using hz, ?_⟩
        exact (Voting.findPoll_isSome_iff _ _).mp hsome
      · rw [hsnd, if_neg hsome] at hz
        simp at hz
    · rintro ⟨voter, hg, hpz, p, hp, hpid⟩
      have hk := Voting.getVoter_ok_iff.mp hg
      have hsome : (Voting.findPoll voter.voteHistory pID).isSome = true :=
        (Voting.findPoll_isSome_iff _ _).mpr ⟨p, hp, hpid⟩
      have hz : (Voting.updateHistLoop voter.voteHistory pID d).2.pollID ≠ 0 := by
        rw [Voting.updateHistLoop_snd_eq, if_pos hsome]
        simpa using hpz
      exact ⟨_, Voting.updateVoterPoll_ok_iff.mpr ⟨voter, hk, hz, rfl, rfl⟩⟩
  · rintro ⟨p, s'⟩ h
    obtain ⟨voter, hk, hz, hp, hs'⟩ := Voting.updateVoterPoll_ok_iff.mp h
    have hsnd := Voting.updateHistLoop_snd_eq voter.voteHistory pID d
    have hsome : (Voting.findPoll voter.voteHistory pID).isSome = true := by
      by_contra hns
      rw [hsnd, if_neg hns] at hz
      simp at hz
    constructor
    · rw [hp, hsnd, if_pos hsome]
    · have hvid : voter.voterID = vID := Voting.voterID_of_mem hkeys hk
      have hfp := Voting.findPoll_updateHistLoop_fst voter.voteHistory pID d hsome
      subst hs'
      unfold Voting.getVoterPoll Voting.getVoter
      rw [hvid, Voting.findKey_setKey_self]
      dsimp only
      rw [hfp]

/-- C6 counterexample: at the voter API, adding a voter whose id is
already stored and updating a voter whose id is absent both produce HTTP
status 500, a server error, not a 4xx client error. -/
theorem C6_counterexample :
    (Voting.addVoterHandler [(1, Voting.NewVoter 1 "Nisarg" "Patel")] (some 1)
      (Voting.NewVoter 1 "Nisarg" "Patel")).1 = 500 ∧
    (Voting.updateVoterHandler [] (some 1) (Voting.NewVoter 1 "Jane" "Doe")).1 = 500 :=
  ⟨rfl, rfl⟩

/-- C6 (amended): NotFound on Get/Delete of an absent voter maps to 404,
malformed ids map to 400, and a duplicate sub-entity (AddVoterPoll for a
poll already in the history) maps to 400; but the voter API maps AddVoter
of an existing id and UpdateVoter of an absent id to 500, not 4xx. -/
theorem C6_error_status_mapping :
    (∀ (s : Voting.VoterStore) (id : Nat) (v : Voting.Voter) (body : Voting.Voter),
      Voting.findKey s id = some v → (Voting.addVoterHandler s (some id) body).1 = 500) ∧
    (∀ (s : Voting.VoterStore) (id : Nat) (body : Voting.Voter),
      Voting.findKey s id = none → (Voting.updateVoterHandler s (some id) body).1 = 500) ∧
    (∀ (s : Voting.VoterStore) (id : Nat),
      Voting.findKey s id = none → Voting.getVoterHandler s (some id) = (404, s)) ∧
    (∀ (s : Voting.VoterStore) (id : Nat),
      Voting.findKey s id = none → Voting.deleteVoterHandler s (some id) = (404, s)) ∧
    (∀ (s : Voting.VoterStore) (body : Voting.Voter),
      (Voting.addVoterHandler s none body).1 = 400) ∧
    (∀ (s : Voting.VoterStore) (vID pID d : Nat) (q : Voting.VoterPoll),
      Voting.getVoterPoll s vID pID = .ok q →
      (Voting.addVoterPollHandler s (some vID) (some pID) d).1 = 400) := by
  refine ⟨?_, ?_, ?_, ?_, ?_, ?_⟩
  · intro s id v body h
    have herr : Voting.addVoter s (Voting.NewVoter id body.firstName body.lastName) =
        .error "voter already exists" :=
      Voting.addVoter_error_of_found (w := v) h
    unfold Voting.addVoterHandler
    dsimp only
    rw [herr]
  · intro s id body h
    have herr : Voting.updateVoter s { body with voterID := id } =
        .error "voter does not exist" :=
      Voting.updateVoter_error_of_none h
    unfold Voting.updateVoterHandler
    dsimp only
    rw [herr]
  · intro s id h
    unfold Voting.getVoterHandler Voting.getVoter
    dsimp only
    rw [h]
  · intro s id h
    unfold Voting.deleteVoterHandler Voting.deleteVoter Voting.getVoter
    dsimp only
    rw [h]
  · intro s body
    rfl
  · intro s vID pID d q h
    unfold Voting.getVoterPoll at h
    cases hg : Voting.getVoter s vID with
    | error e => rw [hg] at h; exact absurd h (by simp)
    | ok voter =>
      rw [hg] at h
      dsimp only at h
      cases hf : Voting.findPoll voter.voteHistory pID with
      | none => rw [hf] at h; exact absurd h (by simp)
      | some p =>
        have herr := Voting.addVoterPoll_error_of_dup (d := d)
          (Voting.getVoter_ok_iff.mp hg) hf
        unfold Voting.addVoterPollHandler
        dsimp only
        rw [herr]

/-- C8 counterexample: after one handled request (status 200), the health
endpoint — which itself runs inside `HealthMiddleware` after the
total-call increment — reports `totalAPICalls = 2`, not `N = 1`. -/
theorem C8_counterexample :
    (Voting.healthEndpointReport
      (Voting.processRequests Voting.initHealth [(200, 10)])).totalAPICalls = 2 ∧
    ¬ (Voting.healthEndpointReport
      (Voting.processRequests Voting.initHealth [(200, 10)])).totalAPICalls = 1 :=
  ⟨rfl, by decide⟩

/-- C8 (amended): after N handled requests of which E returned status ≥
400, a subsequent HealthCheck — itself counted by the middleware before
its handler runs — reports `totalAPICalls = N + 1`, `totalAPICallsError =
E`, and `averageRequestTime = totalRequestTime / (N + 1)` (integer
division), which is zero when there were no prior requests; the
total-call counter is incremented before handling and the error counter
only after. -/
theorem C8_health_report (reqs : List (Nat × Nat)) :
    Voting.healthEndpointReport (Voting.processRequests Voting.initHealth reqs) =
      { totalAPICalls := reqs.length + 1
        totalAPICallsError := (reqs.filter (fun r => 400 ≤ r.1)).length
        totalRequestTime := (reqs.map (·.2)).sum
        averageRequestTime := (reqs.map (·.2)).sum / (reqs.length + 1) } ∧
    (reqs = [] →
      (Voting.healthEndpointReport
        (Voting.processRequests Voting.initHealth reqs)).averageRequestTime = 0) := by
  have h := Voting.processRequests_eq reqs Voting.initHealth
  constructor
  · rw [h]
    unfold Voting.healthEndpointReport Voting.healthCheck Voting.initHealth
    simp
  · intro hr
    subst hr
    rfl

/-- C9: from an empty todo store, adding item 99 ("sample item", done)
succeeds, `GetAllItems` then returns exactly that item,
`ChangeItemDoneStatus(99, false)` succeeds, and `GetItem(99)` returns the
item with `IsDone` false and the id and title unchanged. -/
theorem C9_todo_scenario :
    Todo.addItem { toDoMap := [], file := [] }
        { id := 99, title := "sample item", isDone := true } =
      .ok { toDoMap := [(99, { id := 99, title := "sample item", isDone := true })],
            file := [{ id := 99, title := "sample item", isDone := true }] } ∧
    (Todo.getAllItems
        { toDoMap := [(99, { id := 99, title := "sample item", isDone := true })],
          file := [{ id := 99, title := "sample item", isDone := true }] }).1 =
      [{ id := 99, title := "sample item", isDone := true }] ∧
    Todo.changeItemDoneStatus
        { toDoMap := [(99, { id := 99, title := "sample item", isDone := true })],
          file := [{ id := 99, title := "sample item", isDone := true }] } 99 false =
      .ok { toDoMap := [(99, { id := 99, title := "sample item", isDone := false })],
            file := [{ id := 99, title := "sample item", isDone := false }] } ∧
    Todo.getItem
        { toDoMap := [(99, { id := 99, title := "sample item", isDone := false })],
          file := [{ id := 99, title := "sample item", isDone := false }] } 99 =
      .ok ({ id := 99, title := "sample item", isDone := false },
           { toDoMap := [(99, { id := 99, title := "sample item", isDone := false })],
             file := [{ id := 99, title := "sample item", isDone := false }] }) :=
  ⟨rfl, rfl, rfl, rfl⟩

/-- C7: `UpdateVoter` fails with NotFound when the id is absent; when the
id is present it overwrites only the name fields — the stored voter's
vote history afterwards equals its history before the call, whatever
history the update payload carried — and every other key's binding is
unchanged. -/
theorem C7_updateVoter_frame (s : Voting.VoterStore) (v : Voting.Voter) :
    (Voting.findKey s v.voterID = none →
      Voting.updateVoter s v = .error "voter does not exist") ∧
    (∀ w, Voting.findKey s v.voterID = some w →
      Voting.updateVoter s v =
        .ok ({ w with firstName := v.firstName, lastName := v.lastName },
             Voting.setKey s v.voterID
               { w with firstName := v.firstName, lastName := v.lastName }) ∧
      Voting.getVoterHistory
          (Voting.setKey s v.voterID
            { w with firstName := v.firstName, lastName := v.lastName })
          v.voterID = .ok w.voteHistory ∧
      ∀ j, j ≠ v.voterID →
        Voting.findKey
            (Voting.setKey s v.voterID
              { w with firstName := v.firstName, lastName := v.lastName }) j =
          Voting.findKey s j) := by
  constructor
  · exact Voting.updateVoter_error_of_none
  · intro w hw
    refine ⟨?_, ?_, ?_⟩
    · exact Voting.updateVoter_ok_iff.mpr ⟨w, hw, rfl, rfl⟩
    · unfold Voting.getVoterHistory Voting.getVoter
      rw [Voting.findKey_setKey_self]
    · intro j hj
      exact Voting.findKey_setKey_ne _ _ _ _ hj

/-- C10: a successful `AddVoter` request stores exactly the fresh voter
built from the path id and the body's name fields: whatever vote history
the request JSON carried is discarded, so the just-created voter's
`GetVoterHistory` is the empty list. -/
theorem C10_addVoter_stores_empty_history (s : Voting.VoterStore) (id : Nat)
    (body : Voting.Voter) (s' : Voting.VoterStore)
    (h : Voting.addVoterHandler s (some id) body = (200, s')) :
    Voting.findKey s' id = some (Voting.NewVoter id body.firstName body.lastName) ∧
    Voting.getVoterHistory s' id = .ok [] := by
  unfold Voting.addVoterHandler at h
  dsimp only at h
  cases ha : Voting.addVoter s (Voting.NewVoter id body.firstName body.lastName) with
  | error e =>
    rw [ha] at h
    exact absurd h (by simp)
  | ok s2 =>
    rw [ha] at h
    have hs : s2 = s' := by simpa using h
    subst hs
    obtain ⟨-, hset⟩ := Voting.addVoter_ok_iff.mp ha
    subst hset
    rw [show (Voting.NewVoter id body.firstName body.lastName).voterID = id
      from rfl]
    constructor
    · exact Voting.findKey_setKey_self _ _ _
    · unfold Voting.getVoterHistory Voting.getVoter
      rw [Voting.findKey_setKey_self]
      rfl

/-- Witness for C5 (amended) at a concrete store: voter 1's history holds
poll 2, and the update with date 7 behaves as the theorem states. -/
theorem C5_updateVoterPoll_conditions_witness :
    ((∃ r, Voting.updateVoterPoll
        ([(1, ⟨1, "a", "b", [⟨2, 5⟩]⟩)] : Voting.VoterStore) 1 2 7 = .ok r) ↔
      ∃ voter, Voting.getVoter
          ([(1, ⟨1, "a", "b", [⟨2, 5⟩]⟩)] : Voting.VoterStore) 1 = .ok voter ∧
        (2 : Nat) ≠ 0 ∧ ∃ p ∈ voter.voteHistory, p.pollID = 2) ∧
    (∀ r, Voting.updateVoterPoll
        ([(1, ⟨1, "a", "b", [⟨2, 5⟩]⟩)] : Voting.VoterStore) 1 2 7 = .ok r →
      r.1 = ⟨2, 7⟩ ∧ Voting.getVoterPoll r.2 1 2 = .ok ⟨2, 7⟩) :=
  C5_updateVoterPoll_conditions [(1, ⟨1, "a", "b", [⟨2, 5⟩]⟩)] 1 2 7
    (by intro kv hkv; simp only [List.mem_singleton] at hkv; subst hkv; rfl)

/-- Witness for C6 (amended) at concrete stores and ids. -/
theorem C6_error_status_mapping_witness :
    (Voting.addVoterHandler [(1, Voting.NewVoter 1 "a" "b")] (some 1)
      (Voting.NewVoter 1 "c" "d")).1 = 500 ∧
    (Voting.updateVoterHandler ([] : Voting.VoterStore) (some 2)
      (Voting.NewVoter 2 "c" "d")).1 = 500 ∧
    Voting.getVoterHandler ([] : Voting.VoterStore) (some 3) = (404, []) ∧
    Voting.deleteVoterHandler ([] : Voting.VoterStore) (some 4) = (404, []) ∧
    (Voting.addVoterHandler ([] : Voting.VoterStore) none
      (Voting.NewVoter 0 "x" "y")).1 = 400 ∧
    (Voting.addVoterPollHandler
      ([(1, ⟨1, "a", "b", [⟨2, 5⟩]⟩)] : Voting.VoterStore)
      (some 1) (some 2) 9).1 = 400 :=
  ⟨C6_error_status_mapping.1 _ 1 _ _ rfl,
   C6_error_status_mapping.2.1 _ 2 _ rfl,
   C6_error_status_mapping.2.2.1 _ 3 rfl,
   C6_error_status_mapping.2.2.2.1 _ 4 rfl,
   C6_error_status_mapping.2.2.2.2.1 _ _,
   C6_error_status_mapping.2.2.2.2.2 _ 1 2 9 ⟨2, 5⟩ rfl⟩

/-- Witness for C7 at a concrete store: updating stored voter 1 with a
payload that carries a different name and a junk history. -/
theorem C7_updateVoter_frame_witness :
    Voting.updateVoter ([] : Voting.VoterStore) (Voting.NewVoter 1 "Jane" "Doe") =
      .error "voter does not exist" ∧
    (Voting.updateVoter
        ([(1, (⟨1, "Nisarg", "Patel", [⟨3, 4⟩]⟩ : Voting.Voter))] : Voting.VoterStore)
        (⟨1, "Jane", "Doe", [⟨9, 9⟩]⟩ : Voting.Voter) =
      .ok ((⟨1, "Jane", "Doe", [⟨3, 4⟩]⟩ : Voting.Voter),
           Voting.setKey
             ([(1, (⟨1, "Nisarg", "Patel", [⟨3, 4⟩]⟩ : Voting.Voter))] : Voting.VoterStore) 1
             (⟨1, "Jane", "Doe", [⟨3, 4⟩]⟩ : Voting.Voter)) ∧
      Voting.getVoterHistory
          (Voting.setKey
            ([(1, (⟨1, "Nisarg", "Patel", [⟨3, 4⟩]⟩ : Voting.Voter))] : Voting.VoterStore) 1
            (⟨1, "Jane", "Doe", [⟨3, 4⟩]⟩ : Voting.Voter)) 1 =
        .ok [(⟨3, 4⟩ : Voting.VoterPoll)] ∧
      ∀ j, j ≠ 1 →
        Voting.findKey
            (Voting.setKey
              ([(1, (⟨1, "Nisarg", "Patel", [⟨3, 4⟩]⟩ : Voting.Voter))] : Voting.VoterStore) 1
              (⟨1, "Jane", "Doe", [⟨3, 4⟩]⟩ : Voting.Voter)) j =
          Voting.findKey
            ([(1, (⟨1, "Nisarg", "Patel", [⟨3, 4⟩]⟩ : Voting.Voter))] : Voting.VoterStore) j) :=
  ⟨(C7_updateVoter_frame [] (Voting.NewVoter 1 "Jane" "Doe")).1 rfl,
   (C7_updateVoter_frame [(1, ⟨1, "Nisarg", "Patel", [⟨3, 4⟩]⟩)]
     ⟨1, "Jane", "Doe", [⟨9, 9⟩]⟩).2 ⟨1, "Nisarg", "Patel", [⟨3, 4⟩]⟩ rfl⟩

/-- Witness for C8 (amended): with no prior requests the reported mean
request time is zero. -/
theorem C8_health_report_witness :
    (Voting.healthEndpointReport
      (Voting.processRequests Voting.initHealth [])).averageRequestTime = 0 :=
  (C8_health_report []).2 rfl

/-- Witness for C10: adding voter 7 with a request body whose history is
nonempty still stores an empty history. -/
theorem C10_addVoter_stores_empty_history_witness :
    Voting.findKey [(7, Voting.NewVoter 7 "Jane" "Doe")] 7 =
      some (Voting.NewVoter 7 "Jane" "Doe") ∧
    Voting.getVoterHistory [(7, Voting.NewVoter 7 "Jane" "Doe")] 7 = .ok [] :=
  C10_addVoter_stores_empty_history [] 7 ⟨0, "Jane", "Doe", [⟨3, 4⟩]⟩
    [(7, Voting.NewVoter 7 "Jane" "Doe")] rfl

/-- C1: a vote is stored only if the referenced voter exists in the voter
store, the referenced poll exists in the poll list the poll service
serves, and that poll has an option matching the vote's VoteValue; when
any of these checks fails the workflow answers 404 and leaves both stores
untouched (this also covers a failed voter/poll fetch, which fails
closed with 404). -/
theorem C1_addVote_referential_integrity (tr : Voting.Transport)
    (polls : List Voting.Poll) (now : Nat) (body : Voting.Vote)
    (pathId : Option Nat) (w : Voting.World) :
    (¬ ((∃ voter ∈ Voting.getAllVoters w.voterStore, voter.voterID = body.voterID) ∧
        ∃ poll ∈ polls, poll.pollID = body.pollID ∧
          ∃ opt ∈ poll.pollOptions, opt.pollOptionID = body.voteValue) →
      Voting.addVoteWorkflow tr polls now body pathId w = (404, w)) ∧
    ((Voting.addVoteWorkflow tr polls now body pathId w).2.voteStore ≠ w.voteStore →
      ((∃ voter ∈ Voting.getAllVoters w.voterStore, voter.voterID = body.voterID) ∧
        ∃ poll ∈ polls, poll.pollID = body.pollID ∧
          ∃ opt ∈ poll.pollOptions, opt.pollOptionID = body.voteValue)) := by
  constructor
  · intro hnot
    simp only [Voting.addVoteWorkflow]
    cases hvg : tr.votersGetOk with
    | false => simp
    | true =>
      cases hany : (Voting.getAllVoters w.voterStore).any
          (fun voter => voter.voterID = body.voterID) with
      | false => simp
      | true =>
        have hP : ∃ voter ∈ Voting.getAllVoters w.voterStore,
            voter.voterID = body.voterID := by simpa using hany
        cases hpg : tr.pollsGetOk with
        | false => simp
        | true =>
          cases hfind : polls.find? (fun poll => poll.pollID = body.pollID) with
          | none => simp
          | some poll =>
            dsimp only
            cases hopt : poll.pollOptions.any
                (fun opt => opt.pollOptionID = body.voteValue) with
            | false => simp
            | true =>
              have hmem := List.mem_of_find?_eq_some hfind
              have hid : poll.pollID = body.pollID := by
                simpa using List.find?_some hfind
              have hO : ∃ opt ∈ poll.pollOptions,
                  opt.pollOptionID = body.voteValue := by simpa using hopt
              exact absurd ⟨hP, poll, hmem, hid, hO⟩ hnot
  · simp only [Voting.addVoteWorkflow]
    cases hvg : tr.votersGetOk with
    | false => intro hne; simp at hne
    | true =>
      cases hany : (Voting.getAllVoters w.voterStore).any
          (fun voter => voter.voterID = body.voterID) with
      | false => intro hne; simp at hne
      | true =>
        have hP : ∃ voter ∈ Voting.getAllVoters w.voterStore,
            voter.voterID = body.voterID := by simpa using hany
        cases hpg : tr.pollsGetOk with
        | false => intro hne; simp at hne
        | true =>
          cases hfind : polls.find? (fun poll => poll.pollID = body.pollID) with
          | none => intro hne; simp at hne
          | some poll =>
            dsimp only
            cases hopt : poll.pollOptions.any
                (fun opt => opt.pollOptionID = body.voteValue) with
            | false => intro hne; simp at hne
            | true =>
              have hmem := List.mem_of_find?_eq_some hfind
              have hid : poll.pollID = body.pollID := by
                simpa using List.find?_some hfind
              have hO : ∃ opt ∈ poll.pollOptions,
                  opt.pollOptionID = body.voteValue := by simpa using hopt
              exact fun _ => ⟨hP, poll, hmem, hid, hO⟩

/-- C2: whenever the AddVote workflow ends with status 500 — which
happens exactly when the history POST's transport call fails after the
vote was inserted — the vote is in the vote store, the voter store is
unchanged (no rollback, and no history entry appears for the vote if none
was there before), and an error status (≥ 400) is reported. -/
theorem C2_addVote_history_post_failure (tr : Voting.Transport)
    (polls : List Voting.Poll) (now : Nat) (body : Voting.Vote) (vid : Nat)
    (w : Voting.World)
    (h : (Voting.addVoteWorkflow tr polls now body (some vid) w).1 = 500) :
    (Voting.addVoteWorkflow tr polls now body (some vid) w).2.voterStore =
      w.voterStore ∧
    Voting.getVote
        (Voting.addVoteWorkflow tr polls now body (some vid) w).2.voteStore vid =
      .ok { body with voteID := vid } ∧
    (∀ e, Voting.getVoterPoll w.voterStore body.voterID body.pollID = .error e →
      Voting.getVoterPoll
          (Voting.addVoteWorkflow tr polls now body (some vid) w).2.voterStore
          body.voterID body.pollID = .error e) ∧
    400 ≤ (Voting.addVoteWorkflow tr polls now body (some vid) w).1 := by
  unfold Voting.addVoteWorkflow at h ⊢
  cases hvg : tr.votersGetOk with
  | false => rw [hvg] at h; simp at h
  | true =>
    rw [hvg] at h
    cases hany : (Voting.getAllVoters w.voterStore).any
        (fun voter => voter.voterID = body.voterID) with
    | false => rw [hany] at h; simp at h
    | true =>
      rw [hany] at h
      cases hpg : tr.pollsGetOk with
      | false => rw [hpg] at h; simp at h
      | true =>
        rw [hpg] at h
        cases hfind : polls.find? (fun poll => poll.pollID = body.pollID) with
        | none => rw [hfind] at h; simp at h
        | some poll =>
          rw [hfind] at h
          dsimp only at h ⊢
          cases hopt : poll.pollOptions.any
              (fun opt => opt.pollOptionID = body.voteValue) with
          | false => rw [hopt] at h; simp at h
          | true =>
            rw [hopt] at h
            cases hadd : Voting.addVote w.voteStore { body with voteID := vid } with
            | error e => rw [hadd] at h; simp at h
            | ok vs' =>
              rw [hadd] at h
              cases hh : tr.historyPostOk with
              | true => rw [hh] at h; simp at h
              | false =>
                obtain ⟨-, hset⟩ := Voting.addVote_ok_iff.mp hadd
                subst hset
                refine ⟨rfl, ?_, fun e he => he,
                  (by decide : (400 : Nat) ≤ 500)⟩
                show Voting.getVote
                    (Voting.setKey w.voteStore vid { body with voteID := vid }) vid =
                  .ok { body with voteID := vid }
                unfold Voting.getVote
                rw [Voting.findKey_setKey_self]

/-- C3: `DeleteVote` fails with 404 and leaves the world unchanged when
the vote is absent; when the vote exists but the remote removal of the
poll entry from the voter's history fails at transport level, the whole
world — in particular the vote record — is left in place and status 500
is surfaced, the remote removal having been attempted before the local
delete. -/
theorem C3_deleteVote_remote_failure (hdOk : Bool) (vid : Nat) (w : Voting.World) :
    (Voting.findKey w.voteStore vid = none →
      Voting.deleteVoteWorkflow hdOk (some vid) w = (404, w)) ∧
    (∀ vote, Voting.getVote w.voteStore vid = .ok vote → hdOk = false →
      Voting.deleteVoteWorkflow hdOk (some vid) w = (500, w) ∧
      Voting.getVote
          (Voting.deleteVoteWorkflow hdOk (some vid) w).2.voteStore vid =
        .ok vote) := by
  constructor
  · intro h
    unfold Voting.deleteVoteWorkflow Voting.getVote
    dsimp only
    rw [h]
  · intro vote hv hd
    unfold Voting.deleteVoteWorkflow
    dsimp only
    rw [hv, hd]
    exact ⟨rfl, hv⟩

/-- C4: every voter store reachable through the service's operations
keeps at most one history entry per poll id; `AddVoterPoll` fails when an
entry with the given poll id is already present; and a successful
`AddVoterPoll` on a reachable store makes the new entry appear in
`GetVoterHistory`. -/
theorem C4_history_at_most_one_per_poll :
    (∀ s, Voting.ReachableStore s → Voting.StoreOk s) ∧
    (∀ (s : Voting.VoterStore) (vID pID d : Nat) (voter : Voting.Voter),
      Voting.getVoter s vID = .ok voter →
      (∃ p ∈ voter.voteHistory, p.pollID = pID) →
      Voting.addVoterPoll s vID pID d =
        .error "voter has already voted in this poll") ∧
    (∀ (s : Voting.VoterStore) (vID pID d : Nat) (p : Voting.VoterPoll)
        (s' : Voting.VoterStore),
      Voting.ReachableStore s →
      Voting.addVoterPoll s vID pID d = .ok (p, s') →
      ∃ hist, Voting.getVoterHistory s' vID = .ok hist ∧
        (⟨pID, d⟩ : Voting.VoterPoll) ∈ hist) := by
  refine ⟨?_, ?_, ?_⟩
  · intro s hr
    exact (Voting.reachable_inv hr).1
  · intro s vID pID d voter hg hex
    have hk := Voting.getVoter_ok_iff.mp hg
    have hsome : (Voting.findPoll voter.voteHistory pID).isSome = true :=
      (Voting.findPoll_isSome_iff _ _).mpr hex
    obtain ⟨q, hq⟩ := Option.isSome_iff_exists.mp hsome
    exact Voting.addVoterPoll_error_of_dup hk hq
  · intro s vID pID d p s' hr ha
    obtain ⟨voter, hk, -, -, hs'⟩ := Voting.addVoterPoll_ok_iff.mp ha
    have hvid : voter.voterID = vID :=
      Voting.voterID_of_mem (Voting.reachable_inv hr).2 hk
    subst hs'
    rw [hvid]
    refine ⟨voter.voteHistory ++ [⟨pID, d⟩], ?_, by simp⟩
    unfold Voting.getVoterHistory Voting.getVoter
    rw [Voting.findKey_setKey_self]

/-- Witness for C1: against an empty voter store and an empty poll list,
the vote referencing voter 1 / poll 1 / option 1 is rejected with 404 and
nothing is stored. -/
theorem C1_addVote_referential_integrity_witness :
    Voting.addVoteWorkflow ⟨true, true, true⟩ ([] : List Voting.Poll) 0
      (⟨0, 1, 1, 1⟩ : Voting.Vote) (some 1) (⟨[], []⟩ : Voting.World) =
      (404, (⟨[], []⟩ : Voting.World)) :=
  (C1_addVote_referential_integrity ⟨true, true, true⟩ [] 0 ⟨0, 1, 1, 1⟩
    (some 1) ⟨[], []⟩).1 (by decide)

/-- Witness for C2: with voter 1 and poll 1 (option 1) present, a vote
store that accepts vote 1, and a failing history POST, the workflow ends
in 500 with the vote stored and the voter store unchanged. -/
theorem C2_addVote_history_post_failure_witness :
    (Voting.addVoteWorkflow ⟨true, true, false⟩
        [⟨1, "Tea or Coffee", "q", [⟨1, "Tea"⟩]⟩] 0 (⟨0, 1, 1, 1⟩ : Voting.Vote)
        (some 1) (⟨[(1, Voting.NewVoter 1 "Nisarg" "Patel")], []⟩ : Voting.World)
      ).2.voterStore = [(1, Voting.NewVoter 1 "Nisarg" "Patel")] ∧
    Voting.getVote
        (Voting.addVoteWorkflow ⟨true, true, false⟩
          [⟨1, "Tea or Coffee", "q", [⟨1, "Tea"⟩]⟩] 0 (⟨0, 1, 1, 1⟩ : Voting.Vote)
          (some 1) (⟨[(1, Voting.NewVoter 1 "Nisarg" "Patel")], []⟩ : Voting.World)
        ).2.voteStore 1 = .ok ⟨1, 1, 1, 1⟩ ∧
    (∀ e, Voting.getVoterPoll [(1, Voting.NewVoter 1 "Nisarg" "Patel")] 1 1 =
        .error e →
      Voting.getVoterPoll
          (Voting.addVoteWorkflow ⟨true, true, false⟩
            [⟨1, "Tea or Coffee", "q", [⟨1, "Tea"⟩]⟩] 0 (⟨0, 1, 1, 1⟩ : Voting.Vote)
            (some 1)
            (⟨[(1, Voting.NewVoter 1 "Nisarg" "Patel")], []⟩ : Voting.World)
          ).2.voterStore 1 1 = .error e) ∧
    400 ≤ (Voting.addVoteWorkflow ⟨true, true, false⟩
        [⟨1, "Tea or Coffee", "q", [⟨1, "Tea"⟩]⟩] 0 (⟨0, 1, 1, 1⟩ : Voting.Vote)
        (some 1) (⟨[(1, Voting.NewVoter 1 "Nisarg" "Patel")], []⟩ : Voting.World)
      ).1 :=
  C2_addVote_history_post_failure ⟨true, true, false⟩
    [⟨1, "Tea or Coffee", "q", [⟨1, "Tea"⟩]⟩] 0 ⟨0, 1, 1, 1⟩ 1
    ⟨[(1, Voting.NewVoter 1 "Nisarg" "Patel")], []⟩ rfl

/-- Witness for C3: deleting the absent vote 1 from an empty world gives
404; deleting present vote 1 with a failing remote history removal gives
500 and leaves the vote stored. -/
theorem C3_deleteVote_remote_failure_witness :
    Voting.deleteVoteWorkflow true (some 1) (⟨[], []⟩ : Voting.World) =
      (404, (⟨[], []⟩ : Voting.World)) ∧
    (Voting.deleteVoteWorkflow false (some 1)
        (⟨[], [(1, (⟨1, 2, 3, 4⟩ : Voting.Vote))]⟩ : Voting.World) =
      (500, (⟨[], [(1, (⟨1, 2, 3, 4⟩ : Voting.Vote))]⟩ : Voting.World)) ∧
     Voting.getVote
        (Voting.deleteVoteWorkflow false (some 1)
          (⟨[], [(1, (⟨1, 2, 3, 4⟩ : Voting.Vote))]⟩ : Voting.World)).2.voteStore 1 =
      .ok ⟨1, 2, 3, 4⟩) :=
  ⟨(C3_deleteVote_remote_failure true 1 ⟨[], []⟩).1 rfl,
   (C3_deleteVote_remote_failure false 1 ⟨[], [(1, ⟨1, 2, 3, 4⟩)]⟩).2
     ⟨1, 2, 3, 4⟩ rfl rfl⟩

/-- Witness for C4 at concrete stores: the singleton store reached by one
`AddVoter` satisfies the invariant, a duplicate `AddVoterPoll` fails, and
a fresh one lands in the history. -/
theorem C4_history_at_most_one_per_poll_witness :
    Voting.StoreOk [(1, Voting.NewVoter 1 "a" "b")] ∧
    Voting.addVoterPoll
      ([(1, (⟨1, "a", "b", [⟨2, 5⟩]⟩ : Voting.Voter))] : Voting.VoterStore) 1 2 9 =
      .error "voter has already voted in this poll" ∧
    (∃ hist, Voting.getVoterHistory
        ([(1, (⟨1, "a", "b", [⟨2, 9⟩]⟩ : Voting.Voter))] : Voting.VoterStore) 1 =
        .ok hist ∧ (⟨2, 9⟩ : Voting.VoterPoll) ∈ hist) :=
  ⟨C4_history_at_most_one_per_poll.1 [(1, Voting.NewVoter 1 "a" "b")]
    (Voting.ReachableStore.step Voting.ReachableStore.empty
      (Voting.VStep.add [] 1 "a" "b" [(1, Voting.NewVoter 1 "a" "b")] rfl)),
   C4_history_at_most_one_per_poll.2.1 [(1, ⟨1, "a", "b", [⟨2, 5⟩]⟩)] 1 2 9
     ⟨1, "a", "b", [⟨2, 5⟩]⟩ rfl ⟨⟨2, 5⟩, by simp, rfl⟩,
   C4_history_at_most_one_per_poll.2.2 [(1, Voting.NewVoter 1 "a" "b")] 1 2 9
     ⟨2, 9⟩ [(1, ⟨1, "a", "b", [⟨2, 9⟩]⟩)]
     (Voting.ReachableStore.step Voting.ReachableStore.empty
       (Voting.VStep.add [] 1 "a" "b" [(1, Voting.NewVoter 1 "a" "b")] rfl))
     rfl⟩
